import Mathlib

/-!
Verification of the effects-configuration control logic of the `meet` repository
(`src/frontend/src/features/rooms/livekit/components/effects/EffectsConfiguration.tsx`).

The component's own functions (`isSelected`, `toggleEffect`, `clearEffect`,
`getFaceLandmarksOptions`, `toggleFaceLandmarkEffect`) are embedded directly from
the source. The processor objects (`BackgroundProcessorFactory`, the processor's
`serialize`/`update`) live in the repository's `../blur` module, which is not part
of the provided sources, and the track primitives (`setProcessor`, `stopProcessor`,
the `useTrackToggle` `toggle`) are external collaborators; those are modelled from
the spec, as marked on each definition.

JavaScript option objects are modelled as ordered association lists, because JS
objects preserve key insertion order and `JSON.stringify` renders keys in that
order — which is exactly the behaviour several claims turn on.
-/

namespace Meet

/-- Transform kinds, from the `ProcessorType` enum used by the component
(BLUR, VIRTUAL, FACE_LANDMARKS). -/
inductive ProcessorType where
  | blur
  | virtual
  | faceLandmarks
deriving DecidableEq

/-- A JSON-style option value as used in `BackgroundOptions` objects:
booleans (`showGlasses`), numbers (`blurRadius`), strings (`imagePath`). -/
inductive OptVal where
  | b (v : Bool)
  | n (v : Nat)
  | s (v : String)
deriving DecidableEq

/-- A JS options object, as an ordered association list of key/value pairs.
Order matters: `JSON.stringify` renders the keys in insertion order. -/
abbrev BackgroundOptions := List (String × OptVal)

/-- Rendering of a single option value, as `JSON.stringify` renders it. -/
def stringifyVal : OptVal → String
  | .b true => "true"
  | .b false => "false"
  | .n v => toString v
  | .s v => "\x22" ++ v ++ "\x22"

/-- Rendering of an options object, as `JSON.stringify` renders it: keys in
insertion order, no whitespace. -/
def stringifyOpts (o : BackgroundOptions) : String :=
  "\x7b" ++ String.intercalate ","
    (o.map fun kv => "\x22" ++ kv.1 ++ "\x22:" ++ stringifyVal kv.2) ++ "\x7d"

/-- JS property lookup on an options object (objects have at most one entry
per key; we read the first occurrence). -/
def lookupOpt (o : BackgroundOptions) (k : String) : Option OptVal :=
  match o with
  | [] => none
  | kv :: rest => if kv.1 = k then some kv.2 else lookupOpt rest k

/-- Structural deep equality of two options objects viewed as finite maps:
same keys with the same values, independent of key order and of object
identity. This is the spec's §4.1 notion of options equality, stated here
so it can be compared with what the code actually computes. -/
def deepEqualOpts (a b : BackgroundOptions) : Bool :=
  (a.all fun kv => decide (lookupOpt b kv.1 = some kv.2)) &&
    (b.all fun kv => decide (lookupOpt a kv.1 = some kv.2))

/-- JS spread-then-override `{...o, k: v}`: replaces the value of `k` in place
if present (keeping its position), otherwise appends the new key at the end —
the key-order semantics of JS object spread. -/
def setKey (o : BackgroundOptions) (k : String) (v : OptVal) : BackgroundOptions :=
  match o with
  | [] => [(k, v)]
  | kv :: rest => if kv.1 = k then (k, v) :: rest else kv :: setKey rest k v

/-- JS truthiness of a property read (`undefined` is falsy, `0` and the empty
string are falsy). -/
def jsTruthy : Option OptVal → Bool
  | some (.b v) => v
  | some (.n v) => decide (v ≠ 0)
  | some (.s v) => decide (v ≠ "")
  | none => false

/-- Modelled from the spec: the `BackgroundProcessorInterface` implemented by the
repository's `../blur` module, which is not among the provided sources. Per the
spec (§2, §4.2, §4.3): a processor wraps exactly one transform instance of one
kind, `serialize()` returns the current kind+options snapshot and reflects the
latest `update`, and `update(options)` changes the options in place on the same
instance. `pid` is the instance-identity probe: each factory construction yields
a fresh id, so "same `pid`" means "same transform instance, none recreated". -/
structure Processor where
  ptype : ProcessorType
  opts : BackgroundOptions
  pid : Nat
deriving DecidableEq

/-- Modelled from the spec: the live video track's processor slot (the track
itself belongs to the external media client, spec §6); a track carries at most
one bound processor. -/
structure TrackState where
  processor : Option Processor
deriving DecidableEq

/-- The state visible to the component: the `videoTrack` prop (absent when the
room is entered with the camera off), the `enabled` flag of `useTrackToggle`,
the `processorPending` React state, and the factory's instance counter. -/
structure ControllerState where
  videoTrack : Option TrackState
  enabled : Bool
  pending : Bool
  nextId : Nat
deriving DecidableEq

/-- Failure environment for the awaited external calls: whether the
track-enabling `toggle` call rejects, whether `videoTrack.setProcessor`
rejects, and whether `videoTrack.stopProcessor` rejects. -/
structure Env where
  enableFails : Bool
  setProcessorFails : Bool
  stopProcessorFails : Bool
deriving DecidableEq

/-- The environment in which every external call succeeds. -/
def Env.ok : Env := ⟨false, false, false⟩

/-- Observable events of one control operation, in order: transform-instance
construction by the factory, the track-enabling call (recording whether a
processor was passed into it), a processor becoming bound by `setProcessor`,
a processor being stopped/disposed, and an `onSubmit` callback invocation
(recording the processor id it reports, `none` for `onSubmit(undefined)`). -/
inductive Event where
  | constructed (pid : Nat) (ty : ProcessorType)
  | enabledTrack (withProcessor : Option Nat)
  | boundProcessor (pid : Nat)
  | disposed (pid : Nat)
  | submitted (pid : Option Nat)
deriving DecidableEq

/-- Result of a control operation: the final state, the ordered trace of
observable events, and whether the call ended in an unhandled rejection. -/
structure ToggleResult where
  state : ControllerState
  events : List Event
  threw : Bool
deriving DecidableEq

/-- `getProcessor` from the component: `videoTrack?.getProcessor()`. -/
def getProcessor (s : ControllerState) : Option Processor :=
  match s.videoTrack with
  | none => none
  | some t => t.processor

/-- The body of the component's `isSelected`, factored over the processor
currently on the track: `!!processor && serialized.type === type &&
JSON.stringify(serialized.options) === JSON.stringify(options)`. -/
def isSelectedOn (p? : Option Processor) (ty : ProcessorType)
    (options : BackgroundOptions) : Bool :=
  match p? with
  | none => false
  | some p =>
    decide (p.ptype = ty) && decide (stringifyOpts p.opts = stringifyOpts options)

/-- `isSelected` from the component. -/
def isSelected (ty : ProcessorType) (options : BackgroundOptions)
    (s : ControllerState) : Bool :=
  isSelectedOn (getProcessor s) ty options

/-- Modelled from the spec: `videoTrack.stopProcessor()` (external track
primitive) stops and disposes the bound processor; stopping with no processor
bound is a no-op that cannot fail (spec §4.3: detach is idempotent). A failure
leaves the last known-good state. Returns (track, events, failed). -/
def stopProcessorOnTrack (env : Env) (t : TrackState) :
    TrackState × List Event × Bool :=
  match t.processor with
  | none => (t, [], false)
  | some p =>
    if env.stopProcessorFails then (t, [], true)
    else (⟨none⟩, [.disposed p.pid], false)

/-- `clearEffect` from the component: `await videoTrack.stopProcessor();
onSubmit?.(undefined)`. Reading `stopProcessor` off an absent `videoTrack`
throws; a rejection of `stopProcessor` propagates (there is no handler here)
and skips the `onSubmit` call. -/
def clearEffect (env : Env) (s : ControllerState) : ToggleResult :=
  match s.videoTrack with
  | none => ⟨s, [], true⟩
  | some t =>
    match stopProcessorOnTrack env t with
    | (t', evs, true) => ⟨{ s with videoTrack := some t' }, evs, true⟩
    | (t', evs, false) =>
      ⟨{ s with videoTrack := some t' }, evs ++ [.submitted none], false⟩

/-- The events emitted by the `if (!enabled) await toggle(true)` pre-step of
`toggleEffect`: when the track is already enabled nothing happens, otherwise
the track-enabling call runs with no processor passed into it. -/
def enableEvs (s : ControllerState) : List Event :=
  if s.enabled then [] else [.enabledTrack none]

/-- The `// Change processor.` branch of `toggleEffect`: construct a new
processor via the factory (modelled from the spec: the factory yields a fresh
instance for the requested kind and options) and `await
videoTrack.setProcessor(newProcessor)` (modelled from the spec §4.4/§6: the
track swaps processors, disposing the previously bound one only after the new
one is bound; on failure the track keeps its previous processor), then
`onSubmit?.(newProcessor)`. A rejection here is caught by `toggleEffect`'s
`catch`, so the result never reports a throw; the `finally` clears pending. -/
def applyNewProcessor (ty : ProcessorType) (options : BackgroundOptions)
    (env : Env) (s1 : ControllerState) (tr : TrackState)
    (evs0 : List Event) : ToggleResult :=
  if env.setProcessorFails then
    ⟨{ s1 with nextId := s1.nextId + 1, videoTrack := some tr, pending := false },
     evs0 ++ [.constructed s1.nextId ty], false⟩
  else
    match tr.processor with
    | none =>
      ⟨{ s1 with nextId := s1.nextId + 1,
                 videoTrack := some ⟨some ⟨ty, options, s1.nextId⟩⟩,
                 pending := false },
       evs0 ++ [.constructed s1.nextId ty, .boundProcessor s1.nextId,
                .submitted (some s1.nextId)], false⟩
    | some old =>
      ⟨{ s1 with nextId := s1.nextId + 1,
                 videoTrack := some ⟨some ⟨ty, options, s1.nextId⟩⟩,
                 pending := false },
       evs0 ++ [.constructed s1.nextId ty, .boundProcessor s1.nextId,
                .disposed old.pid, .submitted (some s1.nextId)], false⟩

/-- `toggleEffect` from the component, step by step:
sets `processorPending` to true; if there is no `videoTrack`, constructs a
processor and passes it directly into the track-enabling `toggle(true,
{processor})` call (modelled from the spec §6: `enableTrack(initialProcessor?)`
enables the camera pre-bound with the processor, or fails leaving the track
off), then schedules `pending=false` and returns — note this branch is outside
the `try`/`finally`, so an enable rejection propagates with `pending` still
true and `onSubmit` is never called here; otherwise, if not `enabled`, first
`await toggle(true)` (also outside the `try`; a rejection propagates with
`pending` still true); then, inside `try`: the selected branch clears via
`clearEffect`, the change branch constructs and sets a new processor, the
update branch calls `processor.update(options)` in place (modelled from the
spec §4.3: same instance, options replaced, no rebinding) and submits it;
`catch` swallows any rejection and `finally` clears `pending`. -/
def toggleEffect (ty : ProcessorType) (options : BackgroundOptions)
    (env : Env) (s0 : ControllerState) : ToggleResult :=
  match s0.videoTrack with
  | none =>
    if env.enableFails then
      ⟨{ s0 with pending := true, nextId := s0.nextId + 1 },
       [.constructed s0.nextId ty], true⟩
    else
      ⟨{ s0 with nextId := s0.nextId + 1,
                 videoTrack := some ⟨some ⟨ty, options, s0.nextId⟩⟩,
                 enabled := true, pending := false },
       [.constructed s0.nextId ty, .enabledTrack (some s0.nextId)], false⟩
  | some tr =>
    if !s0.enabled && env.enableFails then
      ⟨{ s0 with pending := true }, [], true⟩
    else
      if isSelectedOn tr.processor ty options then
        match stopProcessorOnTrack env tr with
        | (t', evs, true) =>
          ⟨{ s0 with enabled := true, videoTrack := some t', pending := false },
           enableEvs s0 ++ evs, false⟩
        | (t', evs, false) =>
          ⟨{ s0 with enabled := true, videoTrack := some t', pending := false },
           enableEvs s0 ++ evs ++ [.submitted none], false⟩
      else
        match tr.processor with
        | none =>
          applyNewProcessor ty options env
            { s0 with enabled := true, pending := true } tr (enableEvs s0)
        | some p =>
          if p.ptype = ty then
            ⟨{ s0 with enabled := true,
                       videoTrack := some ⟨some { p with opts := options }⟩,
                       pending := false },
             enableEvs s0 ++ [.submitted (some p.pid)], false⟩
          else
            applyNewProcessor ty options env
              { s0 with enabled := true, pending := true } tr (enableEvs s0)

/-- `getFaceLandmarksOptions` from the component: the serialized options of the
active processor when its kind is FACE_LANDMARKS, otherwise the literal
`{showGlasses: false, showFrench: false}`. -/
def getFaceLandmarksOptions (s : ControllerState) : BackgroundOptions :=
  match getProcessor s with
  | some p =>
    if p.ptype = ProcessorType.faceLandmarks then p.opts
    else [("showGlasses", .b false), ("showFrench", .b false)]
  | none => [("showGlasses", .b false), ("showFrench", .b false)]

/-- The two face-landmark effects of `toggleFaceLandmarkEffect`. -/
inductive FLEffect where
  | glasses
  | french
deriving DecidableEq

/-- The options key flipped by each face-landmark effect. -/
def flKey : FLEffect → String
  | .glasses => "showGlasses"
  | .french => "showFrench"

/-- `toggleFaceLandmarkEffect` from the component: reads the current options,
flips the requested flag with spread-then-override, then clears if both flags
are (falsy) off, otherwise toggles the FACE_LANDMARKS effect with the new
options. -/
def toggleFaceLandmarkEffect (effect : FLEffect) (env : Env)
    (s : ControllerState) : ToggleResult :=
  match setKey (getFaceLandmarksOptions s) (flKey effect)
      (.b (!(jsTruthy (lookupOpt (getFaceLandmarksOptions s) (flKey effect))))) with
  | newOptions =>
    if !(jsTruthy (lookupOpt newOptions "showGlasses")) &&
        !(jsTruthy (lookupOpt newOptions "showFrench")) then
      clearEffect env s
    else
      toggleEffect ProcessorType.faceLandmarks newOptions env s

/-- The events of a trace that are factory constructions. -/
def constructedEvents (evs : List Event) : List Event :=
  evs.filter fun e => match e with | .constructed _ _ => true | _ => false

/-- The events of a trace that are disposals. -/
def disposedEvents (evs : List Event) : List Event :=
  evs.filter fun e => match e with | .disposed _ => true | _ => false

/-- The events of a trace that are `onSubmit` invocations. -/
def submittedEvents (evs : List Event) : List Event :=
  evs.filter fun e => match e with | .submitted _ => true | _ => false

/-! Concrete states used by the counterexamples and scenario theorems. -/

/-- Face-landmark options with `showGlasses` first. -/
def flOptsA : BackgroundOptions := [("showGlasses", .b true), ("showFrench", .b false)]

/-- The same options object as a finite map, with the keys in the other order. -/
def flOptsB : BackgroundOptions := [("showFrench", .b false), ("showGlasses", .b true)]

/-- A state whose track carries an active FaceLandmarkOverlay processor with
options `flOptsA`. -/
def stateC1 : ControllerState := ⟨some ⟨some ⟨.faceLandmarks, flOptsA, 0⟩⟩, true, false, 1⟩

/-- The NORMAL blur options object, `{blurRadius: 10}`. -/
def blurNormal : BackgroundOptions := [("blurRadius", .n 10)]

/-- The LIGHT blur options object, `{blurRadius: 5}`. -/
def blurLight : BackgroundOptions := [("blurRadius", .n 5)]

/-- A state in which the Blur/NORMAL descriptor is currently active. -/
def stateC2 : ControllerState := ⟨some ⟨some ⟨.blur, blurNormal, 0⟩⟩, true, false, 1⟩

/-- A state whose video track exists but is not enabled and has no processor. -/
def stateC5 : ControllerState := ⟨some ⟨none⟩, false, false, 0⟩

/-- A state in which no video track exists (camera off on room entry). -/
def stateC6 : ControllerState := ⟨none, false, false, 0⟩

/-- An environment in which the track-enabling `toggle` call rejects. -/
def envEnableFail : Env := ⟨true, false, false⟩

/-- A state with an active FaceLandmarkOverlay processor showing glasses only,
instance id 7. -/
def stateC7 : ControllerState :=
  ⟨some ⟨some ⟨.faceLandmarks, [("showGlasses", .b true), ("showFrench", .b false)], 7⟩⟩,
   true, false, 8⟩

/-- A state with an active Blur processor, for the clear-twice scenario. -/
def stateC8 : ControllerState := ⟨some ⟨some ⟨.blur, blurNormal, 0⟩⟩, true, false, 1⟩

/-- C1, counterexample. The claim says `isSelected(type, options)` is true iff
the active processor's kind matches and its serialized options are
deep-structurally equal to `options`, independent of property key order. On
this input the active FaceLandmarkOverlay options and the queried options are
deep-equal as maps (same keys, same values, different key order) and the kind
matches, yet `isSelected` returns false, because the code compares
`JSON.stringify` renderings, which depend on key order. -/
theorem C1_counterexample :
    deepEqualOpts flOptsA flOptsB = true ∧
    getProcessor stateC1 = some ⟨.faceLandmarks, flOptsA, 0⟩ ∧
    isSelected .faceLandmarks flOptsB stateC1 = false := by decide

/-- C2, counterexample. The claim says `toggle(d)` followed immediately by
`toggle(d)` results in no active descriptor, for every valid descriptor `d`.
Starting from a state in which `d` (Blur/NORMAL) is already active, the first
call clears it and the second call re-applies it, so the pair of calls ends
with `d` active again, not with no active descriptor. -/
theorem C2_counterexample :
    isSelected .blur blurNormal stateC2 = true ∧
    getProcessor (toggleEffect .blur blurNormal Env.ok
      (toggleEffect .blur blurNormal Env.ok stateC2).state).state =
      some ⟨.blur, blurNormal, 1⟩ := by decide

/-- C5, counterexample. The claim says that for every call made while the
track is not enabled, the newly constructed processor is passed directly into
the track-enabling call so that enabling and binding are atomic. When the
video track exists but is not enabled, the code instead awaits `toggle(true)`
with no processor, and only afterwards constructs and binds the processor:
the trace shows the enabling call carrying no processor, followed by the
construction and binding — an intermediate enabled-without-processor state. -/
theorem C5_counterexample :
    stateC5.enabled = false ∧
    (toggleEffect .blur blurNormal Env.ok stateC5).events =
      [.enabledTrack none, .constructed 0 .blur, .boundProcessor 0,
       .submitted (some 0)] := by decide

/-- C6, counterexample. The claim says every `toggleEffect` call sets
`pending` back to false on completion even when the operation fails,
including in the branch taken when no video track exists. In that branch the
track-enabling call is outside the `try`/`finally`, so when it rejects the
call ends in an unhandled throw with `pending` still true. -/
theorem C6_counterexample :
    (toggleEffect .blur blurNormal envEnableFail stateC6).threw = true ∧
    (toggleEffect .blur blurNormal envEnableFail stateC6).state.pending = true := by
  decide

/-- C8, counterexample. The claim says the second of two consecutive
`clearEffect` calls performs no observable effect beyond the first call. The
second call does invoke `onSubmit(undefined)` again — its trace is
`[submitted none]`, not empty — so it has an observable effect (the parent
callback fires a second time), although it stops no processor. -/
theorem C8_counterexample :
    (clearEffect Env.ok (clearEffect Env.ok stateC8).state).events =
      [.submitted none] ∧
    (clearEffect Env.ok (clearEffect Env.ok stateC8).state).events ≠ [] := by
  decide

/-- C7. Starting from an active FaceLandmarkOverlay with
`{showGlasses: true, showFrench: false}` (instance id 7): toggling French on
yields active options `{showGlasses: true, showFrench: true}` on the same
processor instance (id still 7, nothing constructed); toggling glasses off
next yields `{showGlasses: false, showFrench: true}`, still active on the
same instance; toggling French off after that clears the processor entirely,
because both flags being false takes the clear branch. -/
theorem C7_scenario :
    getProcessor (toggleFaceLandmarkEffect .french Env.ok stateC7).state =
      some ⟨.faceLandmarks,
            [("showGlasses", .b true), ("showFrench", .b true)], 7⟩ ∧
    getProcessor (toggleFaceLandmarkEffect .glasses Env.ok
        (toggleFaceLandmarkEffect .french Env.ok stateC7).state).state =
      some ⟨.faceLandmarks,
            [("showGlasses", .b false), ("showFrench", .b true)], 7⟩ ∧
    getProcessor (toggleFaceLandmarkEffect .french Env.ok
        (toggleFaceLandmarkEffect .glasses Env.ok
          (toggleFaceLandmarkEffect .french Env.ok stateC7).state).state).state =
      none ∧
    constructedEvents
      ((toggleFaceLandmarkEffect .french Env.ok stateC7).events ++
        (toggleFaceLandmarkEffect .glasses Env.ok
          (toggleFaceLandmarkEffect .french Env.ok stateC7).state).events ++
        (toggleFaceLandmarkEffect .french Env.ok
          (toggleFaceLandmarkEffect .glasses Env.ok
            (toggleFaceLandmarkEffect .french Env.ok stateC7).state).state).events) =
      [] := by decide

/-! General lemmas about the toggle branches, shared by the claim theorems. -/

/-- When the queried descriptor is currently selected, `toggleEffect` (with all
external calls succeeding) takes the clear branch and leaves the track with no
processor. -/
theorem toggle_clears_of_selected (ty : ProcessorType) (opts : BackgroundOptions)
    (s : ControllerState) (h : isSelected ty opts s = true) :
    (toggleEffect ty opts Env.ok s).state.videoTrack = some ⟨none⟩ := by
  obtain ⟨vt, en, pe, ni⟩ := s
  rcases vt with _ | ⟨_ | p⟩
  · simp [isSelected, getProcessor, isSelectedOn] at h
  · simp [isSelected, getProcessor, isSelectedOn] at h
  · have h' : isSelectedOn (some p) ty opts = true := by
      simpa [isSelected, getProcessor] using h
    simp [toggleEffect, Env.ok, h', stopProcessorOnTrack]

/-- When no processor of the requested kind is active (no track, no processor,
or a processor of a different kind), `toggleEffect` (all external calls
succeeding) installs a freshly constructed processor with the requested kind
and options and the next instance id. -/
theorem toggle_installs_new (ty : ProcessorType) (opts : BackgroundOptions)
    (s : ControllerState)
    (h : ∀ p, getProcessor s = some p → p.ptype ≠ ty) :
    (toggleEffect ty opts Env.ok s).state.videoTrack =
      some ⟨some ⟨ty, opts, s.nextId⟩⟩ := by
  obtain ⟨vt, en, pe, ni⟩ := s
  rcases vt with _ | ⟨_ | p⟩
  · simp [toggleEffect, Env.ok]
  · simp [toggleEffect, Env.ok, isSelectedOn, applyNewProcessor]
  · have hp : p.ptype ≠ ty := h p (by simp [getProcessor])
    simp [toggleEffect, Env.ok, isSelectedOn, hp, applyNewProcessor]

/-- When the queried descriptor is not currently selected, `toggleEffect`
(all external calls succeeding) ends with an active processor carrying exactly
the requested kind and options (fresh in the change branches, updated in place
in the same-kind branch). -/
theorem toggle_applies_of_not_selected (ty : ProcessorType)
    (opts : BackgroundOptions) (s : ControllerState)
    (h : isSelected ty opts s = false) :
    ∃ n, (toggleEffect ty opts Env.ok s).state.videoTrack =
      some ⟨some ⟨ty, opts, n⟩⟩ := by
  obtain ⟨vt, en, pe, ni⟩ := s
  rcases vt with _ | ⟨_ | p⟩
  · exact ⟨ni, by simp [toggleEffect, Env.ok]⟩
  · exact ⟨ni, by simp [toggleEffect, Env.ok, isSelectedOn, applyNewProcessor]⟩
  · have h' : isSelectedOn (some p) ty opts = false := by
      simpa [isSelected, getProcessor] using h
    by_cases hpt : p.ptype = ty
    · refine ⟨p.pid, ?_⟩
      obtain ⟨pt, po, pid⟩ := p
      subst hpt
      simp [toggleEffect, Env.ok, h']
    · exact ⟨ni, by simp [toggleEffect, Env.ok, h', hpt, applyNewProcessor]⟩

/-- C1 (amended): `isSelected(type, options)` returns true iff the video track
currently has an active processor whose serialized kind equals `type` and
whose serialized options render to the same `JSON.stringify` string as
`options`. This equality is by value (two distinct objects with the same keys
in the same order compare equal; identity plays no role), but it is not
key-order independent: deep-structurally equal options written in a different
key order compare unequal, as `C1_counterexample` shows. -/
theorem C1_isSelected_stringify (ty : ProcessorType) (opts : BackgroundOptions)
    (s : ControllerState) :
    isSelected ty opts s = true ↔
      ∃ p, getProcessor s = some p ∧ p.ptype = ty ∧
        stringifyOpts p.opts = stringifyOpts opts := by
  cases hgp : getProcessor s with
  | none => simp [isSelected, hgp, isSelectedOn]
  | some p => simp [isSelected, hgp, isSelectedOn]

/-- C2 (amended): when the active processor's serialized kind and stringified
options match the requested descriptor (the code's `isSelected` equality, not
deep-structural equality), `toggleEffect` clears the active processor; and
`toggle(d)` followed immediately by `toggle(d)`, starting from a state in
which `d` is not currently selected, results in no active processor. (From a
state where `d` is already selected the pair of calls re-activates `d`
instead, as `C2_counterexample` shows.) -/
theorem C2_toggle_twice (ty : ProcessorType) (opts : BackgroundOptions)
    (s : ControllerState) :
    (isSelected ty opts s = true →
      getProcessor (toggleEffect ty opts Env.ok s).state = none) ∧
    (isSelected ty opts s = false →
      getProcessor (toggleEffect ty opts Env.ok
        (toggleEffect ty opts Env.ok s).state).state = none) := by
  constructor
  · intro h
    have hc := toggle_clears_of_selected ty opts s h
    simp [getProcessor, hc]
  · intro h
    obtain ⟨n, hn⟩ := toggle_applies_of_not_selected ty opts s h
    have hsel : isSelected ty opts (toggleEffect ty opts Env.ok s).state = true := by
      simp [isSelected, getProcessor, hn, isSelectedOn]
    have hc := toggle_clears_of_selected ty opts _ hsel
    simp [getProcessor, hc]

/-- A state whose track is enabled and carries no processor. -/
def stateC2w : ControllerState := ⟨some ⟨none⟩, true, false, 0⟩

/-- Witness for `C2_toggle_twice`: from a concrete state in which Blur/NORMAL
is not selected, toggling it twice ends with no active processor. -/
theorem C2_witness :
    isSelected .blur blurNormal stateC2w = false ∧
    getProcessor (toggleEffect .blur blurNormal Env.ok
      (toggleEffect .blur blurNormal Env.ok stateC2w).state).state = none :=
  ⟨by decide, (C2_toggle_twice .blur blurNormal stateC2w).2 (by decide)⟩

/-- Filtering constructions distributes over trace concatenation. -/
theorem constructedEvents_append (a b : List Event) :
    constructedEvents (a ++ b) = constructedEvents a ++ constructedEvents b := by
  simp [constructedEvents, List.filter_append]

/-- Filtering disposals distributes over trace concatenation. -/
theorem disposedEvents_append (a b : List Event) :
    disposedEvents (a ++ b) = disposedEvents a ++ disposedEvents b := by
  simp [disposedEvents, List.filter_append]

/-- Filtering submissions distributes over trace concatenation. -/
theorem submittedEvents_append (a b : List Event) :
    submittedEvents (a ++ b) = submittedEvents a ++ submittedEvents b := by
  simp [submittedEvents, List.filter_append]

/-- The enable pre-step constructs nothing. -/
theorem constructedEvents_enableEvs (s : ControllerState) :
    constructedEvents (enableEvs s) = [] := by
  unfold enableEvs; split <;> rfl

/-- The enable pre-step disposes nothing. -/
theorem disposedEvents_enableEvs (s : ControllerState) :
    disposedEvents (enableEvs s) = [] := by
  unfold enableEvs; split <;> rfl

/-- The enable pre-step submits nothing. -/
theorem submittedEvents_enableEvs (s : ControllerState) :
    submittedEvents (enableEvs s) = [] := by
  unfold enableEvs; split <;> rfl

/-- A lone submission event constructs nothing. -/
theorem constructedEvents_submitted (x : Option Nat) :
    constructedEvents [Event.submitted x] = [] := rfl

/-- A lone submission event disposes nothing. -/
theorem disposedEvents_submitted (x : Option Nat) :
    disposedEvents [Event.submitted x] = [] := rfl

/-- A state whose track is enabled with no processor, for the two-call
instance-count probe. -/
def stateC3 : ControllerState := ⟨some ⟨none⟩, true, false, 0⟩

/-- C3: when `toggleEffect` is called with the same kind as the active
processor but different options, the existing processor is updated in place:
the resulting active processor has the same instance id and the new options,
the call constructs nothing and disposes nothing, the factory's instance
counter does not advance — and in the concrete probe, `toggle({Blur, Light})`
followed by `toggle({Blur, Normal})` constructs exactly one Blur transform
instance across the two calls, which is still the active one. -/
theorem C3_update_in_place (ty : ProcessorType) (opts : BackgroundOptions)
    (s : ControllerState) (tr : TrackState) (p : Processor)
    (htr : s.videoTrack = some tr) (hp : tr.processor = some p)
    (hty : p.ptype = ty) (hne : stringifyOpts p.opts ≠ stringifyOpts opts) :
    (toggleEffect ty opts Env.ok s).state.videoTrack =
        some ⟨some ⟨ty, opts, p.pid⟩⟩ ∧
    constructedEvents (toggleEffect ty opts Env.ok s).events = [] ∧
    disposedEvents (toggleEffect ty opts Env.ok s).events = [] ∧
    (toggleEffect ty opts Env.ok s).state.nextId = s.nextId ∧
    constructedEvents
      ((toggleEffect .blur blurLight Env.ok stateC3).events ++
        (toggleEffect .blur blurNormal Env.ok
          (toggleEffect .blur blurLight Env.ok stateC3).state).events) =
      [.constructed 0 .blur] ∧
    getProcessor (toggleEffect .blur blurNormal Env.ok
        (toggleEffect .blur blurLight Env.ok stateC3).state).state =
      some ⟨.blur, blurNormal, 0⟩ := by
  have hred : toggleEffect ty opts Env.ok s =
      ⟨{ s with enabled := true,
                videoTrack := some ⟨some ⟨ty, opts, p.pid⟩⟩,
                pending := false },
       enableEvs s ++ [.submitted (some p.pid)], false⟩ := by
    obtain ⟨pt, po, pid⟩ := p
    cases hty
    simp [toggleEffect, htr, hp, hne, Env.ok, isSelectedOn, enableEvs]
  refine ⟨?_, ?_, ?_, ?_, by decide, by decide⟩ <;>
    simp [hred, constructedEvents_append, disposedEvents_append,
          constructedEvents_enableEvs, disposedEvents_enableEvs,
          constructedEvents_submitted, disposedEvents_submitted]

/-- The active Blur/LIGHT processor instance used in the C3 witness. -/
def pC3w : Processor := ⟨.blur, blurLight, 5⟩

/-- A state in which `pC3w` is the active processor. -/
def stateC3w : ControllerState := ⟨some ⟨some pC3w⟩, true, false, 6⟩

/-- Witness for `C3_update_in_place`: toggling Blur/NORMAL over an active
Blur/LIGHT instance with id 5 keeps id 5 active with the new options. -/
theorem C3_witness :
    (toggleEffect .blur blurNormal Env.ok stateC3w).state.videoTrack =
      some ⟨some ⟨.blur, blurNormal, 5⟩⟩ :=
  (C3_update_in_place .blur blurNormal stateC3w ⟨some pC3w⟩ pC3w rfl rfl rfl
    (by decide)).1

/-- C4: when `toggleEffect` is called with a kind different from the active
processor's kind, or with no processor active, a new processor with the
requested kind and options is constructed and bound to the track; the trace
shows the previous processor (when there is one) disposed only after the new
one is bound (`boundProcessor` precedes `disposed` in the event order), and
afterwards exactly one processor is active on the track — the new one. -/
theorem C4_kind_switch (ty : ProcessorType) (opts : BackgroundOptions)
    (s : ControllerState) (tr : TrackState)
    (htr : s.videoTrack = some tr)
    (hdiff : ∀ p, tr.processor = some p → p.ptype ≠ ty) :
    (toggleEffect ty opts Env.ok s).state.videoTrack =
        some ⟨some ⟨ty, opts, s.nextId⟩⟩ ∧
    (toggleEffect ty opts Env.ok s).threw = false ∧
    (tr.processor = none →
      (toggleEffect ty opts Env.ok s).events =
        enableEvs s ++ [.constructed s.nextId ty, .boundProcessor s.nextId,
                        .submitted (some s.nextId)]) ∧
    ∀ old, tr.processor = some old →
      (toggleEffect ty opts Env.ok s).events =
        enableEvs s ++ [.constructed s.nextId ty, .boundProcessor s.nextId,
                        .disposed old.pid, .submitted (some s.nextId)] := by
  have hgp : getProcessor s = tr.processor := by simp [getProcessor, htr]
  have h1 := toggle_installs_new ty opts s
    (fun p hp => hdiff p (hgp.symm.trans hp))
  rcases hproc : tr.processor with _ | p
  · refine ⟨h1, ?_, ?_, ?_⟩
    · simp [toggleEffect, htr, hproc, Env.ok, isSelectedOn, applyNewProcessor]
    · intro _
      simp [toggleEffect, htr, hproc, Env.ok, isSelectedOn, applyNewProcessor]
    · intro old hold
      exact absurd hold (by simp)
  · have hp : p.ptype ≠ ty := hdiff p hproc
    refine ⟨h1, ?_, ?_, ?_⟩
    · simp [toggleEffect, htr, hproc, Env.ok, isSelectedOn, hp, applyNewProcessor]
    · intro h
      exact absurd h (by simp)
    · intro old hold
      injection hold with h'
      subst h'
      simp [toggleEffect, htr, hproc, Env.ok, isSelectedOn, hp, applyNewProcessor]

/-- A state with an active Blur/LIGHT processor (id 3), used to witness the
kind switch to a virtual background. -/
def stateC4w : ControllerState := ⟨some ⟨some ⟨.blur, blurLight, 3⟩⟩, true, false, 4⟩

/-- The options of the first virtual background. -/
def virtualOpts1 : BackgroundOptions := [("imagePath", .s "/assets/backgrounds/1.jpg")]

/-- Witness for `C4_kind_switch`: switching from an active Blur instance (id 3)
to a virtual background binds the new instance (id 4) before disposing the old
one, and leaves the new one active. -/
theorem C4_witness :
    (toggleEffect .virtual virtualOpts1 Env.ok stateC4w).state.videoTrack =
      some ⟨some ⟨.virtual, virtualOpts1, 4⟩⟩ ∧
    (toggleEffect .virtual virtualOpts1 Env.ok stateC4w).events =
      [.constructed 4 .virtual, .boundProcessor 4, .disposed 3,
       .submitted (some 4)] := by
  have h := C4_kind_switch .virtual virtualOpts1 stateC4w ⟨some ⟨.blur, blurLight, 3⟩⟩
    rfl (fun p hp => by cases hp; decide)
  refine ⟨h.1, ?_⟩
  have h2 := h.2.2.2 ⟨.blur, blurLight, 3⟩ rfl
  simpa [enableEvs, stateC4w] using h2

/-- A state in which no video track exists, for the C5 witness. -/
def stateC5w : ControllerState := ⟨none, false, false, 0⟩

/-- C5 (amended): when no video track exists, `toggleEffect(d)` passes the
newly constructed processor directly into the track-enabling call, so enabling
and binding are one atomic step: if the enabling call succeeds the track ends
enabled with `d`'s processor active and the trace contains no
enabled-without-processor point; if it fails, the track stays absent and the
enabled flag unchanged. The original claim's quantification over every call
made while the track is merely not enabled fails: with an existing disabled
track the code enables first and binds later, as `C5_counterexample` shows. -/
theorem C5_no_track_atomic (ty : ProcessorType) (opts : BackgroundOptions)
    (env : Env) (s : ControllerState) (h : s.videoTrack = none) :
    (env.enableFails = false →
      (toggleEffect ty opts env s).state.enabled = true ∧
      getProcessor (toggleEffect ty opts env s).state =
        some ⟨ty, opts, s.nextId⟩ ∧
      (toggleEffect ty opts env s).events =
        [.constructed s.nextId ty, .enabledTrack (some s.nextId)] ∧
      (toggleEffect ty opts env s).threw = false) ∧
    (env.enableFails = true →
      (toggleEffect ty opts env s).state.videoTrack = none ∧
      (toggleEffect ty opts env s).state.enabled = s.enabled ∧
      (toggleEffect ty opts env s).threw = true) := by
  constructor <;> intro he <;> simp [toggleEffect, h, he, getProcessor]

/-- Witness for `C5_no_track_atomic`: entering with no track and toggling
Blur/NORMAL enables the track with the Blur processor active in one step. -/
theorem C5_witness :
    getProcessor (toggleEffect .blur blurNormal Env.ok stateC5w).state =
      some ⟨.blur, blurNormal, 0⟩ ∧
    (toggleEffect .blur blurNormal Env.ok stateC5w).events =
      [.constructed 0 .blur, .enabledTrack (some 0)] :=
  ⟨((C5_no_track_atomic .blur blurNormal Env.ok stateC5w rfl).1 rfl).2.1,
   ((C5_no_track_atomic .blur blurNormal Env.ok stateC5w rfl).1 rfl).2.2.1⟩

/-- C6 (amended): `toggleEffect` sets `pending` true at its start, and
`pending` ends false exactly when the call completes without an unhandled
rejection: errors inside the apply/update/clear block are caught and the
`finally` clears `pending`, but a rejection of the track-enabling call — in
the no-video-track branch or in the `!enabled` pre-step, both outside the
`try`/`finally` — propagates and leaves `pending` true. Equivalently, the
final `pending` flag always equals the throw flag. -/
theorem C6_pending_iff_threw (ty : ProcessorType) (opts : BackgroundOptions)
    (env : Env) (s : ControllerState) :
    (toggleEffect ty opts env s).state.pending =
      (toggleEffect ty opts env s).threw := by
  obtain ⟨vt, en, pe, ni⟩ := s
  obtain ⟨ef, spf, stf⟩ := env
  rcases vt with _ | ⟨_ | p⟩
  · cases ef <;> simp [toggleEffect]
  · cases ef <;> cases en <;> cases spf <;>
      simp [toggleEffect, isSelectedOn, applyNewProcessor]
  · cases ef <;> cases en <;> cases spf <;> cases stf <;>
      cases hsel : isSelectedOn (some p) ty opts <;>
      by_cases hpt : p.ptype = ty <;>
      simp [toggleEffect, hsel, hpt, applyNewProcessor, stopProcessorOnTrack]

/-- C8 (amended): calling `clearEffect` twice in a row leaves the same state
as calling it once — the second call finds no processor to stop, stops and
disposes nothing, changes nothing, and raises no error — but it is not free
of observable effects: it invokes `onSubmit(undefined)` a second time, as
`C8_counterexample` records. -/
theorem C8_clear_idempotent (s : ControllerState) (t : TrackState)
    (h : s.videoTrack = some t) :
    (clearEffect Env.ok (clearEffect Env.ok s).state).state =
        (clearEffect Env.ok s).state ∧
    (clearEffect Env.ok (clearEffect Env.ok s).state).threw = false ∧
    disposedEvents (clearEffect Env.ok (clearEffect Env.ok s).state).events = [] ∧
    (clearEffect Env.ok (clearEffect Env.ok s).state).events =
      [.submitted none] := by
  rcases t with ⟨_ | p⟩ <;>
    simp [clearEffect, h, stopProcessorOnTrack, Env.ok, disposedEvents]

/-- Witness for `C8_clear_idempotent` at a state with an active Blur
processor: the second clear leaves the state of the first and throws
nothing. -/
theorem C8_witness :
    (clearEffect Env.ok (clearEffect Env.ok stateC8).state).state =
      (clearEffect Env.ok stateC8).state ∧
    (clearEffect Env.ok (clearEffect Env.ok stateC8).state).threw = false :=
  ⟨(C8_clear_idempotent stateC8 ⟨some ⟨.blur, blurNormal, 0⟩⟩ rfl).1,
   (C8_clear_idempotent stateC8 ⟨some ⟨.blur, blurNormal, 0⟩⟩ rfl).2.1⟩

/-- Submission filtering passes over a construction event. -/
theorem submittedEvents_cons_constructed (n : Nat) (ty : ProcessorType)
    (l : List Event) :
    submittedEvents (Event.constructed n ty :: l) = submittedEvents l := rfl

/-- Submission filtering passes over a track-enabling event. -/
theorem submittedEvents_cons_enabledTrack (x : Option Nat) (l : List Event) :
    submittedEvents (Event.enabledTrack x :: l) = submittedEvents l := rfl

/-- Submission filtering passes over a binding event. -/
theorem submittedEvents_cons_bound (n : Nat) (l : List Event) :
    submittedEvents (Event.boundProcessor n :: l) = submittedEvents l := rfl

/-- Submission filtering passes over a disposal event. -/
theorem submittedEvents_cons_disposed (n : Nat) (l : List Event) :
    submittedEvents (Event.disposed n :: l) = submittedEvents l := rfl

/-- Submission filtering keeps a submission event. -/
theorem submittedEvents_cons_submitted (x : Option Nat) (l : List Event) :
    submittedEvents (Event.submitted x :: l) =
      Event.submitted x :: submittedEvents l := rfl

/-- Submission filtering of the empty trace. -/
theorem submittedEvents_nil : submittedEvents [] = [] := rfl

/-- C9: for every call to `toggleEffect` made while no video track exists —
whether or not the track-enabling call succeeds — the `onSubmit` callback is
never invoked, even though a new processor is constructed (and, on success,
applied via the track-enabling call); by contrast, every call made with a
video track present and all external calls succeeding invokes `onSubmit`
exactly once, whichever of the clear/change/update branches runs. -/
theorem C9_no_submit_without_track (ty : ProcessorType)
    (opts : BackgroundOptions) (s : ControllerState) :
    (∀ env : Env, s.videoTrack = none →
      submittedEvents (toggleEffect ty opts env s).events = [] ∧
      Event.constructed s.nextId ty ∈ (toggleEffect ty opts env s).events) ∧
    (∀ tr, s.videoTrack = some tr →
      ∃ x, submittedEvents (toggleEffect ty opts Env.ok s).events =
        [Event.submitted x]) := by
  constructor
  · intro env h
    obtain ⟨ef, spf, stf⟩ := env
    cases ef <;>
      simp [toggleEffect, h, submittedEvents_cons_constructed,
            submittedEvents_cons_enabledTrack, submittedEvents_nil]
  · intro tr htr
    rcases hproc : tr.processor with _ | p
    · refine ⟨some s.nextId, ?_⟩
      simp [toggleEffect, htr, hproc, Env.ok, isSelectedOn, applyNewProcessor,
            submittedEvents_append, submittedEvents_enableEvs,
            submittedEvents_cons_constructed, submittedEvents_cons_bound,
            submittedEvents_cons_submitted, submittedEvents_nil]
    · by_cases hsel : isSelectedOn (some p) ty opts = true
      · refine ⟨none, ?_⟩
        simp [toggleEffect, htr, hproc, hsel, Env.ok, stopProcessorOnTrack,
              submittedEvents_append, submittedEvents_enableEvs,
              submittedEvents_cons_disposed, submittedEvents_cons_submitted,
              submittedEvents_nil]
      · have hsel' : isSelectedOn (some p) ty opts = false :=
          Bool.eq_false_iff.mpr hsel
        by_cases hpt : p.ptype = ty
        · refine ⟨some p.pid, ?_⟩
          simp [toggleEffect, htr, hproc, hsel', hpt, Env.ok,
                submittedEvents_append, submittedEvents_enableEvs,
                submittedEvents_cons_submitted, submittedEvents_nil]
        · refine ⟨some s.nextId, ?_⟩
          simp [toggleEffect, htr, hproc, hsel', hpt, Env.ok, applyNewProcessor,
                submittedEvents_append, submittedEvents_enableEvs,
                submittedEvents_cons_constructed, submittedEvents_cons_bound,
                submittedEvents_cons_disposed, submittedEvents_cons_submitted,
                submittedEvents_nil]

/-- A state with no video track and a nonzero instance counter. -/
def stateC9a : ControllerState := ⟨none, false, false, 2⟩

/-- A state with an enabled, processor-free track. -/
def stateC9b : ControllerState := ⟨some ⟨none⟩, true, false, 0⟩

/-- Witness for `C9_no_submit_without_track`: with no track (and the enabling
call failing) nothing is submitted, while with a track present the same
toggle submits exactly once. -/
theorem C9_witness :
    submittedEvents (toggleEffect .blur blurNormal envEnableFail stateC9a).events
      = [] ∧
    ∃ x, submittedEvents (toggleEffect .blur blurNormal Env.ok stateC9b).events =
      [Event.submitted x] :=
  ⟨((C9_no_submit_without_track .blur blurNormal stateC9a).1 envEnableFail rfl).1,
   (C9_no_submit_without_track .blur blurNormal stateC9b).2 ⟨none⟩ rfl⟩

/-- The options object `toggleFaceLandmarkEffect` builds from the defaults for
each requested effect: exactly the requested flag true and the other false. -/
def expectedFlOptions : FLEffect → BackgroundOptions
  | .glasses => [("showGlasses", .b true), ("showFrench", .b false)]
  | .french => [("showGlasses", .b false), ("showFrench", .b true)]

/-- C10: whenever no processor is active or the active processor's serialized
kind is not FaceLandmarkOverlay, `getFaceLandmarksOptions` returns exactly
`{showGlasses: false, showFrench: false}`; consequently
`toggleFaceLandmarkEffect` invoked from such a state (external calls
succeeding) installs a FaceLandmarkOverlay processor whose options have
exactly the requested flag true and the other false. -/
theorem C10_fl_defaults (s : ControllerState) (e : FLEffect)
    (h : ∀ p, getProcessor s = some p → p.ptype ≠ ProcessorType.faceLandmarks) :
    getFaceLandmarksOptions s =
      [("showGlasses", .b false), ("showFrench", .b false)] ∧
    getProcessor (toggleFaceLandmarkEffect e Env.ok s).state =
      some ⟨.faceLandmarks, expectedFlOptions e, s.nextId⟩ := by
  have hfl : getFaceLandmarksOptions s =
      [("showGlasses", .b false), ("showFrench", .b false)] := by
    cases hgp : getProcessor s with
    | none => simp [getFaceLandmarksOptions, hgp]
    | some p => simp [getFaceLandmarksOptions, hgp, h p hgp]
  refine ⟨hfl, ?_⟩
  have hnew := toggle_installs_new ProcessorType.faceLandmarks
    (expectedFlOptions e) s h
  have hstep : toggleFaceLandmarkEffect e Env.ok s =
      toggleEffect .faceLandmarks (expectedFlOptions e) Env.ok s := by
    cases e <;> (unfold toggleFaceLandmarkEffect; rw [hfl]; rfl)
  rw [hstep]
  simp [getProcessor, hnew]

/-- A state with an active Blur processor, from which the glasses request must
install a fresh FaceLandmarkOverlay. -/
def stateC10w : ControllerState := ⟨some ⟨some ⟨.blur, blurNormal, 0⟩⟩, true, false, 1⟩

/-- Witness for `C10_fl_defaults`: from an active-Blur state the face-landmark
options read as both-false, and requesting glasses installs a
FaceLandmarkOverlay with exactly the glasses flag set. -/
theorem C10_witness :
    getFaceLandmarksOptions stateC10w =
      [("showGlasses", .b false), ("showFrench", .b false)] ∧
    getProcessor (toggleFaceLandmarkEffect .glasses Env.ok stateC10w).state =
      some ⟨.faceLandmarks, expectedFlOptions .glasses, 1⟩ :=
  C10_fl_defaults stateC10w .glasses (fun p hp => by cases hp; decide)

end Meet
